import Mathlib

/-!
Verification of the railway-vscode extension core against its specification.

The definitions below are a shallow embedding of the TypeScript source:
  - `src/src/log-viewer.ts` (which concatenates the log-viewer panel, the
    extension entry point, and `DeploymentTreeDataProvider`), and
  - `src/unnamed/part_001` (the `RailwayAPI` remote client).

Stateful classes become explicit state records with pure step functions;
side effects (user notifications, HTTP requests, UI refresh signals) are
reified as explicit output traces.
-/

namespace Railway

/-! ## Data model (from the interfaces in the RailwayAPI module) -/

/-- Deployment status union type of `RailwayDeployment.status`. -/
inductive Status
  | building
  | deploying
  | success
  | failed
  | cancelled
  | crashed
  | removed
  | removing
deriving DecidableEq

/-- Log severity union type of `DeploymentLog.severity`. -/
inductive Severity
  | info
  | warning
  | error
deriving DecidableEq

/-- `RailwayProject` interface. -/
structure Project where
  id : String
  name : String
  description : Option String
  createdAt : String
  updatedAt : String
deriving DecidableEq

/-- `RailwayEnvironment` interface. -/
structure Environment where
  id : String
  name : String
  projectId : String
deriving DecidableEq

/-- `RailwayService` interface. -/
structure Service where
  id : String
  name : String
  projectId : String
deriving DecidableEq

/-- `RailwayDeployment` interface. -/
structure Deployment where
  id : String
  status : Status
  staticUrl : Option String
  createdAt : String
  updatedAt : String
  serviceId : String
  environmentId : String
deriving DecidableEq

/-- `DeploymentLog` interface. -/
structure DeploymentLog where
  message : String
  timestamp : String
  severity : Severity
deriving DecidableEq

/-! ## Transition detector

The detector state is the `deploymentStatuses` map of
`DeploymentTreeDataProvider` (a JS `Map<string, string>` holding the last
observed status per deployment id); we embed it as a function map. -/

/-- The `deploymentStatuses` field: last known status per deployment id. -/
def StatusMap : Type := String → Option Status

/-- `Map.set` on the `deploymentStatuses` map. -/
def statusSet (m : StatusMap) (id : String) (s : Status) : StatusMap :=
  fun k => if k = id then some s else m k

/-- The message channel used by `notifyDeploymentStatusChange`: the three
vscode notification calls it makes. -/
inductive MsgKind
  | information
  | error
  | warning
deriving DecidableEq

/-- A user-facing notification produced by `notifyDeploymentStatusChange`:
which vscode message channel it uses, whether a View Logs action is
offered, and the deployment it concerns. -/
structure UserNotification where
  kind : MsgKind
  offersViewLogs : Bool
  deploymentId : String
deriving DecidableEq

/-- A status-change event: the dispatch of `notifyDeploymentStatusChange`
from inside `checkDeploymentStatuses` with a previous and current status. -/
structure TransitionEvent where
  deploymentId : String
  fromStatus : Status
  toStatus : Status
deriving DecidableEq

/-- `DeploymentTreeDataProvider.notifyDeploymentStatusChange`
(log-viewer.ts lines 561-589): the caller-side notification policy.
`wasBuilding` gates everything; within it, SUCCESS shows an information
message with a View Logs action, FAILED and CRASHED show an error message
with a View Logs action, CANCELLED shows a warning message; any other
current status shows nothing. -/
def notifyDeploymentStatusChange (deployment : Deployment)
    (previousStatus currentStatus : Status) : Option UserNotification :=
  let wasBuilding := [Status.building, Status.deploying].contains previousStatus
  if wasBuilding then
    if currentStatus = Status.success then
      some { kind := MsgKind.information, offersViewLogs := true,
             deploymentId := deployment.id }
    else if currentStatus = Status.failed ∨ currentStatus = Status.crashed then
      some { kind := MsgKind.error, offersViewLogs := true,
             deploymentId := deployment.id }
    else if currentStatus = Status.cancelled then
      some { kind := MsgKind.warning, offersViewLogs := false,
             deploymentId := deployment.id }
    else none
  else none

/-- Result of the inner loop body of `checkDeploymentStatuses` for one
deployment: the updated status map, the emitted transition event (if any)
and the user notification it led to (if any). -/
structure ObserveStep where
  statuses : StatusMap
  event : Option TransitionEvent
  notification : Option UserNotification

/-- The inner loop body of `checkDeploymentStatuses`
(log-viewer.ts lines 546-557): read the previous status, unconditionally
store the current status, and dispatch a status-change notification
exactly when a previous status exists and differs from the current one. -/
def observeDeployment (m : StatusMap) (d : Deployment) : ObserveStep :=
  let previousStatus := m d.id
  let currentStatus := d.status
  let stored := statusSet m d.id currentStatus
  match previousStatus with
  | none => { statuses := stored, event := none, notification := none }
  | some prev =>
      if prev ≠ currentStatus then
        { statuses := stored,
          event := some { deploymentId := d.id, fromStatus := prev,
                          toStatus := currentStatus },
          notification := notifyDeploymentStatusChange d prev currentStatus }
      else
        { statuses := stored, event := none, notification := none }

/-- Folding `observeDeployment` over a list of deployments, in order, as
the loops of `checkDeploymentStatuses` do; collects the emitted transition
events and user notifications in order. -/
def observeAll (m : StatusMap) :
    List Deployment → StatusMap × List TransitionEvent × List UserNotification
  | [] => (m, [], [])
  | d :: rest =>
      let step := observeDeployment m d
      let r := observeAll step.statuses rest
      (r.1, step.event.toList ++ r.2.1, step.notification.toList ++ r.2.2)

/-- A deployment carrying only the fields `checkDeploymentStatuses` reads
(id and status); remaining fields are inert snapshot data. -/
def mkDeployment (id : String) (s : Status) : Deployment :=
  { id := id, status := s, staticUrl := none, createdAt := "", updatedAt := "",
    serviceId := "", environmentId := "" }

/-- Observing one deployment id through a sequence of statuses in order:
the per-id restriction of the `checkDeploymentStatuses` loop across ticks. -/
def observeRun (m : StatusMap) (id : String) (ss : List Status) :
    StatusMap × List TransitionEvent × List UserNotification :=
  observeAll m (ss.map (mkDeployment id))

/-- Number of adjacent differing pairs in a status sequence. -/
def countTransitions : List Status → Nat
  | [] => 0
  | [_] => 0
  | a :: b :: rest => (if a = b then 0 else 1) + countTransitions (b :: rest)

/-! ### Lemmas about the detector -/

theorem statusSet_self (m : StatusMap) (id : String) (s : Status) :
    statusSet m id s id = some s := by
  simp [statusSet]

theorem observeRun_known (id : String) :
    ∀ (ss : List Status) (m : StatusMap) (s0 : Status), m id = some s0 →
      (observeRun m id ss).2.1.length = countTransitions (s0 :: ss) := by
  intro ss
  induction ss with
  | nil => intro m s0 _; simp [observeRun, observeAll, countTransitions]
  | cons s rest ih =>
      intro m s0 hm
      by_cases heq : s0 = s
      · have hstep : observeDeployment m (mkDeployment id s) =
            { statuses := statusSet m id s, event := none, notification := none } := by
          simp [observeDeployment, mkDeployment, hm, heq]
        have hrest := ih (statusSet m id s) s (statusSet_self m id s)
        simp [observeRun, observeAll, hstep, countTransitions, heq] at *
        omega
      · have hstep : observeDeployment m (mkDeployment id s) =
            { statuses := statusSet m id s,
              event := some { deploymentId := id, fromStatus := s0, toStatus := s },
              notification := notifyDeploymentStatusChange (mkDeployment id s) s0 s } := by
          simp [observeDeployment, mkDeployment, hm, heq]
        have hrest := ih (statusSet m id s) s (statusSet_self m id s)
        simp [observeRun, observeAll, hstep, countTransitions, heq] at *
        omega

/-! ## Hierarchical cache and tree provider state

`DeploymentTreeDataProvider` holds the project list and three JS `Map`s
(environments and services keyed by projectId, deployments keyed by the
composite string `serviceId-environmentId`), plus the status map.  JS maps
preserve insertion order, so we embed them as association lists. -/

/-- `Map.set`: overwrite in place if the key exists, else append. -/
def assocSet {α : Type} (m : List (String × α)) (k : String) (v : α) :
    List (String × α) :=
  match m with
  | [] => [(k, v)]
  | (k0, v0) :: rest =>
      if k0 = k then (k, v) :: rest else (k0, v0) :: assocSet rest k v

/-- `Map.get`: first entry with the key, if any. -/
def assocGet {α : Type} (m : List (String × α)) (k : String) : Option α :=
  match m with
  | [] => none
  | (k0, v0) :: rest => if k0 = k then some v0 else assocGet rest k

/-- The mutable fields of `DeploymentTreeDataProvider`
(log-viewer.ts lines 518-522). -/
structure ProviderState where
  projects : List Project
  environments : List (String × List Environment)
  services : List (String × List Service)
  deployments : List (String × List Deployment)
  deploymentStatuses : StatusMap

/-- Read side of the project-list cache slot. -/
def cachedProjects (st : ProviderState) : List Project :=
  st.projects

/-- Write side of the project-list cache slot
(the assignment in `getChildren` at the root level). -/
def putProjects (st : ProviderState) (ps : List Project) : ProviderState :=
  { st with projects := ps }

/-- `this.environments.get(projectId)` in `getChildren`. -/
def cachedEnvironments (st : ProviderState) (projectId : String) :
    Option (List Environment) :=
  assocGet st.environments projectId

/-- `this.environments.set(projectId, envs)` in `getChildren`. -/
def putEnvironments (st : ProviderState) (projectId : String)
    (envs : List Environment) : ProviderState :=
  { st with environments := assocSet st.environments projectId envs }

/-- `this.services.get(projectId)` in `getChildren`. -/
def cachedServices (st : ProviderState) (projectId : String) :
    Option (List Service) :=
  assocGet st.services projectId

/-- `this.services.set(projectId, services)` in `getChildren`. -/
def putServices (st : ProviderState) (projectId : String)
    (svcs : List Service) : ProviderState :=
  { st with services := assocSet st.services projectId svcs }

/-- The composite deployment-cache key built in `getChildren`. -/
def deploymentCacheKey (serviceId environmentId : String) : String :=
  serviceId ++ "-" ++ environmentId

/-- `this.deployments.get(key)` in `getChildren`. -/
def cachedDeployments (st : ProviderState) (serviceId environmentId : String) :
    Option (List Deployment) :=
  assocGet st.deployments (deploymentCacheKey serviceId environmentId)

/-- `this.deployments.set(key, serviceDeployments)` in `getChildren`. -/
def putDeployments (st : ProviderState) (serviceId environmentId : String)
    (ds : List Deployment) : ProviderState :=
  { st with deployments :=
      assocSet st.deployments (deploymentCacheKey serviceId environmentId) ds }

/-- `DeploymentTreeDataProvider.clearCache` (log-viewer.ts lines 713-719):
resets the project list and clears the three maps; it does not touch
`deploymentStatuses`.  The source additionally fires a UI refresh. -/
def clearCache (st : ProviderState) : ProviderState :=
  { st with projects := [], environments := [], services := [],
            deployments := [] }

/-- `DeploymentTreeDataProvider.checkDeploymentStatuses`
(log-viewer.ts lines 543-559): iterate over every deployment list held in
the `deployments` cache, entry by entry, observing each deployment. -/
def checkDeploymentStatuses (st : ProviderState) :
    ProviderState × List TransitionEvent × List UserNotification :=
  let r := observeAll st.deploymentStatuses ((st.deployments.map Prod.snd).flatten)
  ({ st with deploymentStatuses := r.1 }, r.2.1, r.2.2)

/-- The RailwayAPI operations a code path could invoke; the per-tick trace
of these calls is recorded explicitly. -/
inductive ApiCall
  | getProjects
  | getProjectEnvironments (projectId : String)
  | getServices (projectId : String)
  | getDeployments (serviceId environmentId : String)
  | getDeploymentLogs (deploymentId : String)
deriving DecidableEq

/-- Everything one auto-refresh tick produces. -/
structure TickResult where
  state : ProviderState
  events : List TransitionEvent
  notifications : List UserNotification
  apiCalls : List ApiCall
  uiRefreshed : Bool

/-- The timer callback registered by `startAutoRefresh`
(log-viewer.ts lines 537-540): `await this.checkDeploymentStatuses()`
followed by `this.refresh()`.  Neither the callback nor
`checkDeploymentStatuses` invokes any RailwayAPI operation, so the api-call
trace of a tick is empty. -/
def autoRefreshTick (st : ProviderState) : TickResult :=
  let r := checkDeploymentStatuses st
  { state := r.1, events := r.2.1, notifications := r.2.2,
    apiCalls := [], uiRefreshed := true }

/-! ## Log viewer panel auto-refresh timer

`LogViewerPanel` stores at most one interval handle in
`autoRefreshInterval`.  We model the host timer registry as the list of
timer ids this panel has started and not yet cleared; `setInterval`
returns a fresh id, `clearInterval` removes one. -/

/-- The timer-related state of a `LogViewerPanel` plus the host registry of
its live timers. -/
structure PanelState where
  autoRefreshInterval : Option Nat
  activeTimers : List Nat
  nextTimerId : Nat
  disposed : Bool

/-- The state of a freshly constructed panel: no timer. -/
def initialPanel : PanelState :=
  { autoRefreshInterval := none, activeTimers := [], nextTimerId := 0,
    disposed := false }

/-- `LogViewerPanel.toggleAutoRefresh` (log-viewer.ts lines 115-126): if a
timer handle is stored, clear it and drop the handle; otherwise start a
fresh timer and store its handle.  A disposed panel no longer receives
webview messages, so the operation is a no-op after disposal. -/
def toggleAutoRefresh (p : PanelState) : PanelState :=
  if p.disposed then p
  else
    match p.autoRefreshInterval with
    | some t =>
        { p with activeTimers := p.activeTimers.erase t,
                 autoRefreshInterval := none }
    | none =>
        { p with activeTimers := p.nextTimerId :: p.activeTimers,
                 autoRefreshInterval := some p.nextTimerId,
                 nextTimerId := p.nextTimerId + 1 }

/-- `LogViewerPanel.dispose` (log-viewer.ts lines 128-143): clears the
stored interval if present (without resetting the field) and tears the
panel down. -/
def disposePanel (p : PanelState) : PanelState :=
  match p.autoRefreshInterval with
  | some t => { p with activeTimers := p.activeTimers.erase t, disposed := true }
  | none => { p with disposed := true }

/-- The user-driven operations on a panel. -/
inductive PanelOp
  | toggle
  | dispose
deriving DecidableEq

/-- One operation applied to panel state. -/
def panelStep (p : PanelState) : PanelOp → PanelState
  | PanelOp.toggle => toggleAutoRefresh p
  | PanelOp.dispose => disposePanel p

/-- Running a sequence of toggle and dispose operations from the initial
panel state. -/
def runPanel (ops : List PanelOp) : PanelState :=
  ops.foldl panelStep initialPanel

/-- Invariant tying the stored handle to the live timers: while the panel
lives, exactly the stored handle (if any) is live; after disposal nothing
is live. -/
def panelInv (p : PanelState) : Prop :=
  (p.disposed = true → p.activeTimers = []) ∧
  (p.disposed = false → p.activeTimers = p.autoRefreshInterval.toList)

theorem panelStep_inv (p : PanelState) (op : PanelOp) (h : panelInv p) :
    panelInv (panelStep p op) := by
  obtain ⟨hdisp, hlive⟩ := h
  cases op with
  | toggle =>
      by_cases hd : p.disposed
      · simpa [panelStep, toggleAutoRefresh, hd] using ⟨hdisp, hlive⟩
      · have hl := hlive (by simpa using hd)
        cases ht : p.autoRefreshInterval with
        | none =>
            have hnil : p.activeTimers = [] := by simpa [ht] using hl
            simp [panelStep, toggleAutoRefresh, hd, ht, panelInv, hnil]
        | some t =>
            have : p.activeTimers = [t] := by simpa [ht] using hl
            simp [panelStep, toggleAutoRefresh, hd, ht, panelInv, this]
  | dispose =>
      by_cases hd : p.disposed
      · have he := hdisp (by simpa using hd)
        cases ht : p.autoRefreshInterval with
        | none => simp [panelStep, disposePanel, ht, panelInv, he]
        | some t => simp [panelStep, disposePanel, ht, panelInv, he]
      · have hl := hlive (by simpa using hd)
        cases ht : p.autoRefreshInterval with
        | none =>
            have : p.activeTimers = [] := by simpa [ht] using hl
            simp [panelStep, disposePanel, ht, panelInv, this]
        | some t =>
            have : p.activeTimers = [t] := by simpa [ht] using hl
            simp [panelStep, disposePanel, ht, panelInv, this]

theorem runPanel_inv (ops : List PanelOp) : panelInv (runPanel ops) := by
  have haux : ∀ (l : List PanelOp) (p : PanelState), panelInv p →
      panelInv (l.foldl panelStep p) := by
    intro l
    induction l with
    | nil => intro p hp; simpa using hp
    | cons op rest ih =>
        intro p hp
        simpa using ih (panelStep p op) (panelStep_inv p op hp)
  exact haux ops initialPanel (by simp [initialPanel, panelInv])

/-! ## Remote resource client (RailwayAPI, src/unnamed/part_001)

Each fetch operation posts one or more GraphQL queries.  A post either
throws a transport error (modelled as `Except.error`) or yields a response
whose body may carry a GraphQL `errors` array and a data payload.  The
response environment for an operation fixes the outcome of each post it
could make; the operation itself is then a pure function of that
environment, returning the result list, the user-facing messages it
surfaces, and how many posts it attempted. -/

/-- A transport failure thrown by the HTTP client: optional status code,
whether the error body is an HTML page, and the error message. -/
structure HttpFailure where
  status : Option Nat
  htmlBody : Bool
  message : String
deriving DecidableEq

/-- A GraphQL `errors` array: present or not, with the optional message of
its first element (`errors[0]?.message`). -/
abbrev GqlErrors : Type := Option (Option String)

/-- The `errors[0]?.message || fallback` idiom. -/
def firstErrorMessage (e : Option String) : String :=
  e.getD "Unknown error"

/-- The `msg.toLowerCase().includes("not authorized")` check used by
`getProjects`. -/
def containsNotAuthorized (s : String) : Bool :=
  (s.toLower.splitOn "not authorized").length ≠ 1

/-- The user-facing messages the embedded RailwayAPI operations can
surface through the vscode notification API. -/
inductive SurfacedMessage
  | authenticationFailed
  | htmlErrorPage
  | fetchProjectsFailed (msg : String)
  | apiError (msg : String)
  | noProjectsFound
  | fetchEnvironmentsFailed (msg : String)
  | fetchServicesFailed (msg : String)
  | logsUnavailable
deriving DecidableEq

/-- Outcome of one fetch operation: the returned entity list, the messages
surfaced to the user in order, and the number of HTTP posts attempted. -/
structure FetchOutcome (α : Type) where
  result : List α
  surfaced : List SurfacedMessage
  requests : Nat
deriving DecidableEq

/-- Payload shapes the projects queries can return: the universal query
reads `data.projects.edges`, the personal query reads
`data.me.projects.edges`. -/
structure ProjectsPayload where
  projects : Option (List Project)
  meProjects : Option (List Project)
deriving DecidableEq

/-- Body of a response to one of the two projects queries. -/
structure ProjectsResponse where
  errors : GqlErrors
  payload : ProjectsPayload
deriving DecidableEq

/-- Fixed outcomes of the two posts `getProjects` can make. -/
structure ProjectsEnv where
  universalResult : Except HttpFailure ProjectsResponse
  personalResult : Except HttpFailure ProjectsResponse

/-- The catch block of `getProjects` (part_001 lines 253-265): classify
401/403 as an authentication failure, an HTML body as an error page, and
anything else as a generic failure message; always return the empty list. -/
def getProjectsCatch (e : HttpFailure) (requests : Nat) : FetchOutcome Project :=
  if e.status = some 401 ∨ e.status = some 403 then
    { result := [], surfaced := [SurfacedMessage.authenticationFailed],
      requests := requests }
  else if e.htmlBody then
    { result := [], surfaced := [SurfacedMessage.htmlErrorPage],
      requests := requests }
  else
    { result := [], surfaced := [SurfacedMessage.fetchProjectsFailed e.message],
      requests := requests }

/-- `RailwayAPI.getProjects` (part_001 lines 178-266): try the universal
query; on GraphQL errors fall back to the personal query; if both fail,
surface the error message unless it contains "not authorized"; shape
checks fall through exactly as in the source; any thrown transport error
lands in the catch block.  The operation reads and writes no other state
of the class. -/
def getProjects (env : ProjectsEnv) : FetchOutcome Project :=
  match env.universalResult with
  | Except.error e => getProjectsCatch e 1
  | Except.ok r1 =>
    match r1.errors with
    | some _ =>
      match env.personalResult with
      | Except.error e => getProjectsCatch e 2
      | Except.ok r2 =>
        match r2.errors with
        | some err2 =>
            let msg := firstErrorMessage err2
            if containsNotAuthorized msg then
              { result := [], surfaced := [], requests := 2 }
            else
              { result := [], surfaced := [SurfacedMessage.apiError msg],
                requests := 2 }
        | none =>
          match r2.payload.meProjects with
          | some ps => { result := ps, surfaced := [], requests := 2 }
          | none =>
            match r2.payload.projects with
            | some ps => { result := ps, surfaced := [], requests := 2 }
            | none =>
                { result := [], surfaced := [SurfacedMessage.noProjectsFound],
                  requests := 2 }
    | none =>
      match r1.payload.projects with
      | some ps => { result := ps, surfaced := [], requests := 1 }
      | none =>
          { result := [], surfaced := [SurfacedMessage.noProjectsFound],
            requests := 1 }

/-- Two consecutive invocations of `getProjects` with the credential and
remote behaviour unchanged, as driven by consecutive automatic refreshes:
`getProjects` holds no cross-call state, so each invocation repeats the
posts and the surfaced messages. -/
def getProjectsTwice (env : ProjectsEnv) : FetchOutcome Project :=
  let o1 := getProjects env
  let o2 := getProjects env
  { result := o1.result ++ o2.result, surfaced := o1.surfaced ++ o2.surfaced,
    requests := o1.requests + o2.requests }

/-- Node shape shared by the environments and services queries. -/
structure NamedNode where
  id : String
  name : String
deriving DecidableEq

/-- Body of a response to a single edges-list query: a GraphQL errors
array and the extracted edges list, if the expected path is present. -/
structure EdgesResponse where
  errors : GqlErrors
  nodes : Option (List NamedNode)
deriving DecidableEq

/-- `RailwayAPI.getProjectEnvironments` (part_001 lines 268-310): one post;
GraphQL errors degrade to the empty list silently, a missing
`data.project.environments.edges` path degrades to the empty list
silently, a thrown transport error surfaces one failure message and
returns the empty list; on success each node is enriched with the
projectId. -/
def getProjectEnvironments (projectId : String)
    (resp : Except HttpFailure EdgesResponse) : FetchOutcome Environment :=
  match resp with
  | Except.error e =>
      { result := [],
        surfaced := [SurfacedMessage.fetchEnvironmentsFailed e.message],
        requests := 1 }
  | Except.ok r =>
    match r.errors with
    | some _ => { result := [], surfaced := [], requests := 1 }
    | none =>
      match r.nodes with
      | none => { result := [], surfaced := [], requests := 1 }
      | some ns =>
          { result := ns.map (fun n =>
              { id := n.id, name := n.name, projectId := projectId }),
            surfaced := [], requests := 1 }

/-- `RailwayAPI.getServices` (part_001 lines 312-354): identical control
flow to `getProjectEnvironments` over `data.project.services.edges`. -/
def getServices (projectId : String)
    (resp : Except HttpFailure EdgesResponse) : FetchOutcome Service :=
  match resp with
  | Except.error e =>
      { result := [],
        surfaced := [SurfacedMessage.fetchServicesFailed e.message],
        requests := 1 }
  | Except.ok r =>
    match r.errors with
    | some _ => { result := [], surfaced := [], requests := 1 }
    | none =>
      match r.nodes with
      | none => { result := [], surfaced := [], requests := 1 }
      | some ns =>
          { result := ns.map (fun n =>
              { id := n.id, name := n.name, projectId := projectId }),
            surfaced := [], requests := 1 }

/-- Node shape of the deployments queries. -/
structure DeploymentNode where
  id : String
  status : Status
  staticUrl : Option String
  createdAt : String
  updatedAt : String
deriving DecidableEq

/-- Payload shapes of the two deployments queries: the primary query reads
`data.deployments.edges`, the alternative reads
`data.service.deployments.edges`. -/
structure DeploymentsPayload where
  deployments : Option (List DeploymentNode)
  serviceDeployments : Option (List DeploymentNode)
deriving DecidableEq

/-- Body of a response to one of the two deployments queries. -/
structure DeploymentsResponse where
  errors : GqlErrors
  payload : DeploymentsPayload
deriving DecidableEq

/-- Fixed outcomes of the two posts `getDeployments` can make. -/
structure DeploymentsEnv where
  primaryResult : Except HttpFailure DeploymentsResponse
  alternativeResult : Except HttpFailure DeploymentsResponse

/-- Enrich a fetched deployment node with the serviceId and environmentId
the caller supplied, as the spread in the source does. -/
def deploymentOfNode (serviceId environmentId : String) (n : DeploymentNode) :
    Deployment :=
  { id := n.id, status := n.status, staticUrl := n.staticUrl,
    createdAt := n.createdAt, updatedAt := n.updatedAt,
    serviceId := serviceId, environmentId := environmentId }

/-- `RailwayAPI.getDeployments` (part_001 lines 356-457): try the primary
query; on GraphQL errors try the alternative; if both have errors return
the empty list; shape checks fall through exactly as in the source (after
the alternative succeeds without its shape, the primary shape is probed on
the alternative response); every failure path, including thrown transport
errors, returns the empty list without surfacing a message. -/
def getDeployments (serviceId environmentId : String)
    (env : DeploymentsEnv) : FetchOutcome Deployment :=
  match env.primaryResult with
  | Except.error _ => { result := [], surfaced := [], requests := 1 }
  | Except.ok r1 =>
    match r1.errors with
    | some _ =>
      match env.alternativeResult with
      | Except.error _ => { result := [], surfaced := [], requests := 2 }
      | Except.ok r2 =>
        match r2.errors with
        | some _ => { result := [], surfaced := [], requests := 2 }
        | none =>
          match r2.payload.serviceDeployments with
          | some ns =>
              { result := ns.map (deploymentOfNode serviceId environmentId),
                surfaced := [], requests := 2 }
          | none =>
            match r2.payload.deployments with
            | some ns =>
                { result := ns.map (deploymentOfNode serviceId environmentId),
                  surfaced := [], requests := 2 }
            | none => { result := [], surfaced := [], requests := 2 }
    | none =>
      match r1.payload.deployments with
      | some ns =>
          { result := ns.map (deploymentOfNode serviceId environmentId),
            surfaced := [], requests := 1 }
      | none => { result := [], surfaced := [], requests := 1 }

/-- Node shape of the build-logs query, which has no severity field. -/
structure BuildLogNode where
  message : String
  timestamp : String
deriving DecidableEq

/-- Data payload paths probed by the three deployment-log queries. -/
structure LogsData where
  deploymentLogs : Option (List DeploymentLog)
  nestedLogs : Option (List DeploymentLog)
  buildLogs : Option (List BuildLogNode)
deriving DecidableEq

/-- Body of a response to one deployment-log query: GraphQL errors plus
the optional `data` object. -/
structure LogsResponse where
  errors : GqlErrors
  payload : Option LogsData
deriving DecidableEq

/-- Fixed outcomes of the three posts `getDeploymentLogs` can make. -/
structure LogsEnv where
  attempt1 : Except HttpFailure LogsResponse
  attempt2 : Except HttpFailure LogsResponse
  attempt3 : Except HttpFailure LogsResponse

/-- One iteration of the query loop in `getDeploymentLogs`: a thrown
transport error, a GraphQL error, a missing data object, or a null
extraction all continue the loop (`none`); otherwise the extracted logs
(possibly the empty list) are returned. -/
def tryLogQuery (r : Except HttpFailure LogsResponse)
    (extractor : LogsData → Option (List DeploymentLog)) :
    Option (List DeploymentLog) :=
  match r with
  | Except.error _ => none
  | Except.ok resp =>
    match resp.errors with
    | some _ => none
    | none =>
      match resp.payload with
      | none => none
      | some d => extractor d

/-- The build-logs extractor maps every node to severity info. -/
def buildLogExtractor (d : LogsData) : Option (List DeploymentLog) :=
  match d.buildLogs with
  | some ns => some (ns.map (fun n =>
      { message := n.message, timestamp := n.timestamp,
        severity := Severity.info }))
  | none => none

/-- `RailwayAPI.getDeploymentLogs` (part_001 lines 459-543): try the three
query shapes in order, returning the first successful extraction; if all
three fail, surface one warning and return the empty list.  Every failure
is absorbed inside the loop, so the operation never propagates an
exception to its caller. -/
def getDeploymentLogs (env : LogsEnv) : FetchOutcome DeploymentLog :=
  match tryLogQuery env.attempt1 (fun d => d.deploymentLogs) with
  | some logs => { result := logs, surfaced := [], requests := 1 }
  | none =>
    match tryLogQuery env.attempt2 (fun d => d.nestedLogs) with
    | some logs => { result := logs, surfaced := [], requests := 2 }
    | none =>
      match tryLogQuery env.attempt3 buildLogExtractor with
      | some logs => { result := logs, surfaced := [], requests := 3 }
      | none =>
          { result := [], surfaced := [SurfacedMessage.logsUnavailable],
            requests := 3 }

/-! ### Failure classifications used by the error-handling claims -/

/-- A transport-level Unauthorized failure on the first projects post. -/
def unauthorizedTransport (env : ProjectsEnv) : Prop :=
  ∃ e : HttpFailure, env.universalResult = Except.error e ∧
    (e.status = some 401 ∨ e.status = some 403)

/-- A classified non-fatal failure of a single edges-list fetch: transport
exception, GraphQL errors present, or expected path missing. -/
def edgesFetchFailed (resp : Except HttpFailure EdgesResponse) : Bool :=
  match resp with
  | Except.error _ => true
  | Except.ok r => r.errors.isSome || r.nodes.isNone

/-- A classified non-fatal failure of the deployments fetch: every probed
query either throws, reports GraphQL errors, or lacks the expected shape. -/
def deploymentsFetchFailed (env : DeploymentsEnv) : Bool :=
  match env.primaryResult with
  | Except.error _ => true
  | Except.ok r1 =>
    match r1.errors with
    | some _ =>
      match env.alternativeResult with
      | Except.error _ => true
      | Except.ok r2 =>
          r2.errors.isSome ||
            (r2.payload.serviceDeployments.isNone &&
              r2.payload.deployments.isNone)
    | none => r1.payload.deployments.isNone

/-- Total failure of the deployment-log fetch: all three attempts fail. -/
def logsFetchFailed (env : LogsEnv) : Bool :=
  (tryLogQuery env.attempt1 (fun d => d.deploymentLogs)).isNone &&
    (tryLogQuery env.attempt2 (fun d => d.nestedLogs)).isNone &&
    (tryLogQuery env.attempt3 buildLogExtractor).isNone

/-! ## Concrete sample values used by witnesses and counterexamples -/

/-- A sample deployment cached under one service-environment key. -/
def sampleDeployment : Deployment := mkDeployment "dep-1" Status.building

/-- A provider state holding exactly one cached deployment and an empty
status map. -/
def sampleTickState : ProviderState :=
  { projects := [], environments := [], services := [],
    deployments := [("svc-1-env-1", [sampleDeployment])],
    deploymentStatuses := fun _ => none }

/-- A projects environment whose first post throws an HTTP 401. -/
def unauthorizedSampleEnv : ProjectsEnv :=
  { universalResult := Except.error
      { status := some 401, htmlBody := false,
        message := "Request failed with status code 401" },
    personalResult := Except.ok
      { errors := none, payload := { projects := none, meProjects := none } } }

/-- An edges-list post that throws a transport error. -/
def failingEdgesResp : Except HttpFailure EdgesResponse :=
  Except.error { status := some 500, htmlBody := false, message := "network down" }

/-- A deployments environment where both queries report GraphQL errors. -/
def failingDeploymentsEnv : DeploymentsEnv :=
  { primaryResult := Except.ok
      { errors := some (some "Problem processing request"),
        payload := { deployments := none, serviceDeployments := none } },
    alternativeResult := Except.ok
      { errors := some (some "Problem processing request"),
        payload := { deployments := none, serviceDeployments := none } } }

/-- A deployment-logs environment where every query attempt fails. -/
def failingLogsEnv : LogsEnv :=
  { attempt1 := Except.error
      { status := none, htmlBody := false, message := "timeout" },
    attempt2 := Except.ok
      { errors := some (some "Unknown field logs"), payload := none },
    attempt3 := Except.ok
      { errors := none,
        payload := some { deploymentLogs := none, nestedLogs := none,
                          buildLogs := none } } }

/-! ## Further helper lemmas -/

theorem observeDeployment_statuses (m : StatusMap) (d : Deployment) :
    (observeDeployment m d).statuses = statusSet m d.id d.status := by
  cases h : m d.id with
  | none => simp [observeDeployment, h]
  | some prev =>
      by_cases hp : prev = d.status <;> simp [observeDeployment, h, hp]

theorem statusSet_isSome (m : StatusMap) (id k : String) (s : Status)
    (h : (m k).isSome = true) : ((statusSet m id s) k).isSome = true := by
  by_cases hk : k = id <;> simp [statusSet, hk, h]

theorem observeAll_mono :
    ∀ (ds : List Deployment) (m : StatusMap) (k : String),
      (m k).isSome = true → ((observeAll m ds).1 k).isSome = true := by
  intro ds
  induction ds with
  | nil => intro m k h; simpa [observeAll] using h
  | cons d rest ih =>
      intro m k h
      simp only [observeAll]
      exact ih _ _ (by rw [observeDeployment_statuses]
                       exact statusSet_isSome m d.id k d.status h)

theorem observeAll_records :
    ∀ (ds : List Deployment) (m : StatusMap) (d : Deployment), d ∈ ds →
      ((observeAll m ds).1 d.id).isSome = true := by
  intro ds
  induction ds with
  | nil => intro m d h; cases h
  | cons d0 rest ih =>
      intro m d h
      simp only [observeAll]
      rcases List.mem_cons.mp h with h1 | h2
      · apply observeAll_mono
        rw [observeDeployment_statuses, h1]
        simp [statusSet]
      · exact ih _ _ h2

theorem assocGet_assocSet_self {α : Type} :
    ∀ (m : List (String × α)) (k : String) (v : α),
      assocGet (assocSet m k v) k = some v := by
  intro m
  induction m with
  | nil => intro k v; simp [assocSet, assocGet]
  | cons hd tl ih =>
      intro k v
      obtain ⟨k0, v0⟩ := hd
      by_cases h : k0 = k
      · simp [assocSet, assocGet, h]
      · simp [assocSet, assocGet, h, ih]

/-! ## Claims -/

/-- C1: for every deployment id with no prior entry in the status map and
every sequence of statuses observed for it in order through the
`checkDeploymentStatuses` loop body, the number of transition events
dispatched equals the number of adjacent differing pairs of the sequence;
in particular the first-ever observation of an id dispatches no event
regardless of its status value (and hence observing the same status twice
in a row dispatches at most one event across the pair). -/
theorem c1_transition_count (m : StatusMap) (id : String) (ss : List Status)
    (hfresh : m id = none) :
    (observeRun m id ss).2.1.length = countTransitions ss ∧
    ∀ s : Status, (observeDeployment m (mkDeployment id s)).event = none := by
  constructor
  · cases ss with
    | nil => simp [observeRun, observeAll, countTransitions]
    | cons s rest =>
        have hstep : observeDeployment m (mkDeployment id s) =
            { statuses := statusSet m id s, event := none,
              notification := none } := by
          simp [observeDeployment, mkDeployment, hfresh]
        have hrest := observeRun_known id rest (statusSet m id s) s
          (statusSet_self m id s)
        simp only [observeRun, List.map, observeAll, hstep] at *
        simpa using hrest
  · intro s
    simp [observeDeployment, mkDeployment, hfresh]

/-- C1 witness: a fresh id observed through BUILDING, DEPLOYING, DEPLOYING,
SUCCESS dispatches exactly as many events as there are adjacent differing
pairs of that sequence. -/
theorem c1_transition_count_witness :
    ((fun _ : String => (none : Option Status)) "d1" = none) ∧
    ((observeRun (fun _ => none) "d1"
        [Status.building, Status.deploying, Status.deploying,
         Status.success]).2.1.length
      = countTransitions [Status.building, Status.deploying, Status.deploying,
          Status.success] ∧
     ∀ s : Status,
       (observeDeployment (fun _ => none) (mkDeployment "d1" s)).event = none) :=
  ⟨rfl, c1_transition_count (fun _ => none) "d1" _ rfl⟩

/-- C2 counterexample: a tick of the tree poll over a state caching one
deployment performs zero RailwayAPI calls, not one per cached deployment
as the claim states; the cached deployment entry is also left untouched
rather than updated with a fetched result. -/
theorem c2_tick_no_refetch_counterexample :
    ((sampleTickState.deployments.map Prod.snd).flatten).length = 1 ∧
    (autoRefreshTick sampleTickState).apiCalls.length = 0 ∧
    (autoRefreshTick sampleTickState).state.deployments
      = sampleTickState.deployments ∧
    (0 : Nat) ≠ 1 :=
  ⟨rfl, rfl, rfl, by decide⟩

/-- C2 amended: every tree-poll tick performs, for every deployment
currently held in the cache, an observe call on the cached deployment
(recording its status in the last-known-status map), followed by a
UI-refresh signal; it performs no fetch via the Remote Resource Client and
leaves every cache level unchanged. -/
theorem c2_tick_observe_only (st : ProviderState) :
    (autoRefreshTick st).apiCalls = [] ∧
    (autoRefreshTick st).state.projects = st.projects ∧
    (autoRefreshTick st).state.environments = st.environments ∧
    (autoRefreshTick st).state.services = st.services ∧
    (autoRefreshTick st).state.deployments = st.deployments ∧
    (autoRefreshTick st).uiRefreshed = true ∧
    (∀ d ∈ (st.deployments.map Prod.snd).flatten,
      ((autoRefreshTick st).state.deploymentStatuses d.id).isSome = true) := by
  refine ⟨rfl, rfl, rfl, rfl, rfl, rfl, ?_⟩
  intro d hd
  simp only [autoRefreshTick, checkDeploymentStatuses]
  exact observeAll_records _ _ _ hd

/-- C2 witness: in the sample state the one cached deployment is observed
by the tick. -/
theorem c2_tick_observe_only_witness :
    sampleDeployment ∈ (sampleTickState.deployments.map Prod.snd).flatten ∧
    ((autoRefreshTick sampleTickState).state.deploymentStatuses
        sampleDeployment.id).isSome = true :=
  ⟨by decide,
   (c2_tick_observe_only sampleTickState).2.2.2.2.2.2 sampleDeployment (by decide)⟩

/-- C4 counterexample: against an Unauthorized (HTTP 401) response,
`getProjects` returns the empty list and surfaces one authentication
failure, but nothing suppresses automatic retries: the operation holds no
failure state, so the next automatic fetch with the credential unchanged
issues the request again and surfaces the error again, giving two
surfaced Unauthorized-classified errors where the claim allows one. -/
theorem c4_no_retry_suppression_counterexample :
    (getProjects unauthorizedSampleEnv).result = [] ∧
    (getProjects unauthorizedSampleEnv).surfaced
      = [SurfacedMessage.authenticationFailed] ∧
    (getProjectsTwice unauthorizedSampleEnv).requests = 2 ∧
    (getProjectsTwice unauthorizedSampleEnv).surfaced
      = [SurfacedMessage.authenticationFailed,
         SurfacedMessage.authenticationFailed] ∧
    (2 : Nat) ≠ 1 :=
  ⟨by decide, by decide, by decide, by decide, by decide⟩

/-- C4 amended: when `getProjects` receives an Unauthorized-classified
transport failure it returns the empty sequence and surfaces exactly one
Unauthorized-classified error for that invocation; but no retry
suppression exists: each further automatic invocation with the same
failing credential repeats the request and surfaces the error again. -/
theorem c4_unauthorized_single_surface (env : ProjectsEnv)
    (h : unauthorizedTransport env) :
    getProjects env =
      { result := [], surfaced := [SurfacedMessage.authenticationFailed],
        requests := 1 } ∧
    getProjectsTwice env =
      { result := [],
        surfaced := [SurfacedMessage.authenticationFailed,
                     SurfacedMessage.authenticationFailed],
        requests := 2 } := by
  obtain ⟨e, he, hs⟩ := h
  have h1 : getProjects env =
      { result := [], surfaced := [SurfacedMessage.authenticationFailed],
        requests := 1 } := by
    rcases hs with h4 | h4 <;> simp [getProjects, he, getProjectsCatch, h4]
  exact ⟨h1, by simp [getProjectsTwice, h1]⟩

/-- C4 witness: the amended behaviour at the concrete 401 environment. -/
theorem c4_unauthorized_single_surface_witness :
    unauthorizedTransport unauthorizedSampleEnv ∧
    getProjects unauthorizedSampleEnv =
      { result := [], surfaced := [SurfacedMessage.authenticationFailed],
        requests := 1 } :=
  ⟨⟨_, rfl, Or.inl rfl⟩,
   (c4_unauthorized_single_surface unauthorizedSampleEnv ⟨_, rfl, Or.inl rfl⟩).1⟩

/-- C5 counterexample: the claimed equivalence fails: the transition from
BUILDING to DEPLOYING has a from-status in Building or Deploying yet
produces no user notification; moreover the CANCELLED case produces a
warning-channel message, not an information-channel one. -/
theorem c5_notification_iff_counterexample :
    [Status.building, Status.deploying].contains Status.building = true ∧
    notifyDeploymentStatusChange sampleDeployment Status.building
      Status.deploying = none ∧
    notifyDeploymentStatusChange sampleDeployment Status.building
      Status.cancelled
      = some { kind := MsgKind.warning, offersViewLogs := false,
               deploymentId := "dep-1" } :=
  ⟨by decide, by decide, by decide⟩

/-- C5 amended: a user notification is produced if and only if the
from-status is Building or Deploying and the to-status is Success, Failed,
Crashed or Cancelled; within those, Success yields an information-channel
notification with a log-view action, Failed and Crashed yield
error-channel notifications with a log-view action, and Cancelled yields a
warning-channel notification without one; and a deployment observed
Building then Deploying then Success across three ticks produces exactly
one notification, the success one for the Deploying-to-Success
transition. -/
theorem c5_notification_policy :
    (∀ (d : Deployment) (f t : Status),
        (notifyDeploymentStatusChange d f t).isSome = true ↔
          ((f = Status.building ∨ f = Status.deploying) ∧
           (t = Status.success ∨ t = Status.failed ∨ t = Status.crashed ∨
             t = Status.cancelled))) ∧
    (∀ d : Deployment,
        notifyDeploymentStatusChange d Status.building Status.success
          = some { kind := MsgKind.information, offersViewLogs := true,
                   deploymentId := d.id } ∧
        notifyDeploymentStatusChange d Status.deploying Status.success
          = some { kind := MsgKind.information, offersViewLogs := true,
                   deploymentId := d.id } ∧
        notifyDeploymentStatusChange d Status.building Status.failed
          = some { kind := MsgKind.error, offersViewLogs := true,
                   deploymentId := d.id } ∧
        notifyDeploymentStatusChange d Status.deploying Status.failed
          = some { kind := MsgKind.error, offersViewLogs := true,
                   deploymentId := d.id } ∧
        notifyDeploymentStatusChange d Status.building Status.crashed
          = some { kind := MsgKind.error, offersViewLogs := true,
                   deploymentId := d.id } ∧
        notifyDeploymentStatusChange d Status.deploying Status.crashed
          = some { kind := MsgKind.error, offersViewLogs := true,
                   deploymentId := d.id } ∧
        notifyDeploymentStatusChange d Status.building Status.cancelled
          = some { kind := MsgKind.warning, offersViewLogs := false,
                   deploymentId := d.id } ∧
        notifyDeploymentStatusChange d Status.deploying Status.cancelled
          = some { kind := MsgKind.warning, offersViewLogs := false,
                   deploymentId := d.id }) ∧
    (observeRun (fun _ => none) "d1"
        [Status.building, Status.deploying, Status.success]).2.2
      = [{ kind := MsgKind.information, offersViewLogs := true,
           deploymentId := "d1" }] := by
  refine ⟨?_, ?_, by decide⟩
  · intro d f t
    cases f <;> cases t <;> simp [notifyDeploymentStatusChange]
  · intro d
    refine ⟨rfl, rfl, rfl, rfl, rfl, rfl, rfl, rfl⟩

/-- C6: every hierarchy-level fetch of the remote client degrades to the
empty sequence on a classified non-fatal failure (transport exception,
GraphQL errors array, or missing expected shape), and the deployment-log
fetch absorbs every failure, surfacing only a warning, instead of throwing
to its caller. -/
theorem c6_degrade_to_empty :
    (∀ (pid : String) (resp : Except HttpFailure EdgesResponse),
        edgesFetchFailed resp = true →
          (getProjectEnvironments pid resp).result = []) ∧
    (∀ (pid : String) (resp : Except HttpFailure EdgesResponse),
        edgesFetchFailed resp = true → (getServices pid resp).result = []) ∧
    (∀ (sid eid : String) (env : DeploymentsEnv),
        deploymentsFetchFailed env = true →
          (getDeployments sid eid env).result = []) ∧
    (∀ env : LogsEnv,
        logsFetchFailed env = true →
          (getDeploymentLogs env).result = [] ∧
          (getDeploymentLogs env).surfaced
            = [SurfacedMessage.logsUnavailable]) := by
  refine ⟨?_, ?_, ?_, ?_⟩
  · intro pid resp h
    cases resp with
    | error e => simp [getProjectEnvironments]
    | ok r =>
        cases herr : r.errors with
        | some x => simp [getProjectEnvironments, herr]
        | none =>
            cases hn : r.nodes with
            | none => simp [getProjectEnvironments, herr, hn]
            | some ns => simp [edgesFetchFailed, herr, hn] at h
  · intro pid resp h
    cases resp with
    | error e => simp [getServices]
    | ok r =>
        cases herr : r.errors with
        | some x => simp [getServices, herr]
        | none =>
            cases hn : r.nodes with
            | none => simp [getServices, herr, hn]
            | some ns => simp [edgesFetchFailed, herr, hn] at h
  · intro sid eid env h
    obtain ⟨pr, ar⟩ := env
    cases pr with
    | error e => simp [getDeployments]
    | ok r1 =>
        cases herr1 : r1.errors with
        | none =>
            cases hd1 : r1.payload.deployments with
            | none => simp [getDeployments, herr1, hd1]
            | some ns => simp [deploymentsFetchFailed, herr1, hd1] at h
        | some e1 =>
            cases ar with
            | error e => simp [getDeployments, herr1]
            | ok r2 =>
                cases herr2 : r2.errors with
                | some e2 => simp [getDeployments, herr1, herr2]
                | none =>
                    cases hs2 : r2.payload.serviceDeployments with
                    | some ns =>
                        simp [deploymentsFetchFailed, herr1, herr2, hs2] at h
                    | none =>
                        cases hd2 : r2.payload.deployments with
                        | some ns =>
                            simp [deploymentsFetchFailed, herr1, herr2,
                              hs2, hd2] at h
                        | none =>
                            simp [getDeployments, herr1, herr2, hs2, hd2]
  · intro env h
    simp only [logsFetchFailed, Bool.and_eq_true, Option.isNone_iff_eq_none] at h
    obtain ⟨⟨h1, h2⟩, h3⟩ := h
    simp [getDeploymentLogs, h1, h2, h3]

/-- C6 witness: concrete failing inputs for each fetch operation. -/
theorem c6_degrade_to_empty_witness :
    edgesFetchFailed failingEdgesResp = true ∧
    (getProjectEnvironments "proj-1" failingEdgesResp).result = [] ∧
    (getServices "proj-1" failingEdgesResp).result = [] ∧
    deploymentsFetchFailed failingDeploymentsEnv = true ∧
    (getDeployments "svc-1" "env-1" failingDeploymentsEnv).result = [] ∧
    logsFetchFailed failingLogsEnv = true ∧
    (getDeploymentLogs failingLogsEnv).result = [] :=
  ⟨rfl, c6_degrade_to_empty.1 "proj-1" failingEdgesResp rfl,
   c6_degrade_to_empty.2.1 "proj-1" failingEdgesResp rfl, rfl,
   c6_degrade_to_empty.2.2.1 "svc-1" "env-1" failingDeploymentsEnv rfl, rfl,
   (c6_degrade_to_empty.2.2.2 failingLogsEnv rfl).1⟩

/-- C7: after `clearCache`, a get on any key of any cache level returns
absent (the project-list slot holds the cleared empty list): all four
levels are emptied simultaneously. -/
theorem c7_clear_cache_all_levels (st : ProviderState) :
    cachedProjects (clearCache st) = [] ∧
    (∀ pid, cachedEnvironments (clearCache st) pid = none) ∧
    (∀ pid, cachedServices (clearCache st) pid = none) ∧
    (∀ sid eid, cachedDeployments (clearCache st) sid eid = none) := by
  refine ⟨rfl, ?_, ?_, ?_⟩
  · intro pid; simp [clearCache, cachedEnvironments, assocGet]
  · intro pid; simp [clearCache, cachedServices, assocGet]
  · intro sid eid; simp [clearCache, cachedDeployments, assocGet]

/-- C8: the log viewer holds at most one active auto-refresh timer after
any sequence of toggle and dispose operations; toggling on, off, on leaves
exactly one; and disposal always ends with no active timer. -/
theorem c8_single_log_timer :
    (∀ ops : List PanelOp, (runPanel ops).activeTimers.length ≤ 1) ∧
    (runPanel [PanelOp.toggle, PanelOp.toggle,
        PanelOp.toggle]).activeTimers.length = 1 ∧
    (∀ ops : List PanelOp,
        (runPanel (ops ++ [PanelOp.dispose])).activeTimers = []) := by
  refine ⟨?_, by decide, ?_⟩
  · intro ops
    obtain ⟨hd, hl⟩ := runPanel_inv ops
    by_cases h : (runPanel ops).disposed
    · simp [hd h]
    · rw [hl (by simpa using h)]
      cases (runPanel ops).autoRefreshInterval <;> simp
  · intro ops
    have h1 : runPanel (ops ++ [PanelOp.dispose])
        = panelStep (runPanel ops) PanelOp.dispose := by
      simp [runPanel, List.foldl_append]
    rw [h1]
    obtain ⟨hd, hl⟩ := runPanel_inv ops
    by_cases h : (runPanel ops).disposed
    · have he := hd h
      cases ht : (runPanel ops).autoRefreshInterval with
      | none => simp [panelStep, disposePanel, ht, he]
      | some t => simp [panelStep, disposePanel, ht, he]
    · have hl2 := hl (by simpa using h)
      cases ht : (runPanel ops).autoRefreshInterval with
      | none =>
          have : (runPanel ops).activeTimers = [] := by simpa [ht] using hl2
          simp [panelStep, disposePanel, ht, this]
      | some t =>
          have : (runPanel ops).activeTimers = [t] := by simpa [ht] using hl2
          simp [panelStep, disposePanel, ht, this]

/-- C9: for every cache level, key and entity sequence (including the
empty one), a put immediately followed by a get on the same key returns
exactly the stored sequence. -/
theorem c9_put_get_roundtrip (st : ProviderState) :
    (∀ ps, cachedProjects (putProjects st ps) = ps) ∧
    (∀ pid envs,
        cachedEnvironments (putEnvironments st pid envs) pid = some envs) ∧
    (∀ pid svcs, cachedServices (putServices st pid svcs) pid = some svcs) ∧
    (∀ sid eid ds,
        cachedDeployments (putDeployments st sid eid ds) sid eid = some ds) := by
  refine ⟨fun ps => rfl, ?_, ?_, ?_⟩
  · intro pid envs
    simp [cachedEnvironments, putEnvironments, assocGet_assocSet_self]
  · intro pid svcs
    simp [cachedServices, putServices, assocGet_assocSet_self]
  · intro sid eid ds
    simp [cachedDeployments, putDeployments, assocGet_assocSet_self]

/-- C10: clearing the hierarchical cache leaves the transition detector
status map untouched, so an already-observed deployment is never treated
as a first observation after a user-triggered refresh. -/
theorem c10_clear_cache_preserves_statuses (st : ProviderState) :
    (clearCache st).deploymentStatuses = st.deploymentStatuses ∧
    (∀ d : Deployment,
        observeDeployment (clearCache st).deploymentStatuses d
          = observeDeployment st.deploymentStatuses d) :=
  ⟨rfl, fun _ => rfl⟩

end Railway
